import Mathlib

/-!
Shallow embedding of the MPI work-distribution core of this repository
(`be_mpi_recordstoredistributor.cpp`, `be_mpi_receiver.cpp`), with
theorems checking the natural-language specification against it.

Bytes are modelled as `Nat` values (each `< 256` where it matters),
machine integers as `Nat` with explicit `% 2^w` wrap where the source
can overflow or underflow, and fallible C++ paths as `Option`/sum types.
-/

namespace BiomevalMPI

/-- Task status vocabulary.  Modelled from the spec: the enum itself is
declared in `be_mpi.h`, which is not under `src/`; §3 of the spec lists
the members in this order. -/
inductive TaskStatus where
  | ok
  | exit
  | failed
  | requestJobTermination
deriving DecidableEq

/-- Task command vocabulary.  Modelled from the spec: the enum itself is
declared in `be_mpi.h`, which is not under `src/`; §3 of the spec lists
the members in this order. -/
inductive TaskCommand where
  | continueCmd
  | ignore
  | exit
  | quickExit
  | termExit
deriving DecidableEq

/-- Modelled from the spec: the integer code of a `TaskStatus`
(`to_int_type` over the underlying enum values of `be_mpi.h`, not under
`src/`); consecutive codes in the spec's declaration order. -/
def taskStatusCode : TaskStatus → Nat
  | .ok => 0
  | .exit => 1
  | .failed => 2
  | .requestJobTermination => 3

/-- Modelled from the spec: the integer code of a `TaskCommand`
(`to_int_type` over the underlying enum values of `be_mpi.h`, not under
`src/`); consecutive codes in the spec's declaration order. -/
def taskCommandCode : TaskCommand → Nat
  | .continueCmd => 0
  | .ignore => 1
  | .exit => 2
  | .quickExit => 3
  | .termExit => 4

/-- Modelled from the spec: `to_enum<TaskStatus>` of `be_mpi.h` (not
under `src/`): an in-range integer code yields the status, anything
else raises (here `none`). -/
def taskStatusFromCode : Nat → Option TaskStatus
  | 0 => some .ok
  | 1 => some .exit
  | 2 => some .failed
  | 3 => some .requestJobTermination
  | _ => none

/-- Modelled from the spec: `to_enum<TaskCommand>` of `be_mpi.h` (not
under `src/`): an in-range integer code yields the command, anything
else raises (here `none`). -/
def taskCommandFromCode : Nat → Option TaskCommand
  | 0 => some .continueCmd
  | 1 => some .ignore
  | 2 => some .exit
  | 3 => some .quickExit
  | 4 => some .termExit
  | _ => none

/-- Decimal parse of a digit string, as `std::stoi` does on the
canonical digit strings exchanged by the wire functions. -/
def parseDecimal (cs : List Char) : Nat :=
  cs.foldl (fun a c => a * 10 + (c.toNat - 48)) 0

/-- `commandToMessage` of `be_mpi_receiver.cpp`: the message holds the
command's integer code as a decimal string. -/
def commandToMessage (c : TaskCommand) : List Char :=
  (Nat.repr (taskCommandCode c)).data

/-- `messageToCommand` of `be_mpi_receiver.cpp`: parse the decimal
string and convert the integer to a command. -/
def messageToCommand (m : List Char) : Option TaskCommand :=
  taskCommandFromCode (parseDecimal m)

/-- `statusToMessage` of `be_mpi_receiver.cpp`: the message holds the
status's integer code as a decimal string. -/
def statusToMessage (s : TaskStatus) : List Char :=
  (Nat.repr (taskStatusCode s)).data

/-- `messageToStatus` of `be_mpi_receiver.cpp`: parse the decimal
string and convert the integer to a status. -/
def messageToStatus (m : List Char) : Option TaskStatus :=
  taskStatusFromCode (parseDecimal m)

/-- Little-endian bytes of a `uint32` value, as `memcpy` of a `uint32_t`
lays them out on the little-endian target. -/
def le32 (n : Nat) : List Nat :=
  [n % 256, n / 256 % 256, n / 256 / 256 % 256, n / 256 / 256 / 256 % 256]

/-- Little-endian bytes of a `uint64` value, as `memcpy` of a `uint64_t`
lays them out on the little-endian target. -/
def le64 (n : Nat) : List Nat :=
  [n % 256, n / 256 % 256, n / 256 / 256 % 256, n / 256 / 256 / 256 % 256,
   n / 256 / 256 / 256 / 256 % 256, n / 256 / 256 / 256 / 256 / 256 % 256,
   n / 256 / 256 / 256 / 256 / 256 / 256 % 256,
   n / 256 / 256 / 256 / 256 / 256 / 256 / 256 % 256]

/-- One payload entry written by `fillBufferWithKeyAndValue` of
`be_mpi_recordstoredistributor.cpp`: `uint32` key length (the source
truncates `key.length()` to `uint32_t`), `uint64` value size, the key
bytes (`memcpy` of the truncated length), the value bytes. -/
def entryBytes (key value : List Nat) : List Nat :=
  le32 (key.length % 2 ^ 32) ++ le64 (value.length % 2 ^ 64) ++
    key.take (key.length % 2 ^ 32) ++ value

/-- The payload built by repeated `fillBufferWithKeyAndValue` calls: the
concatenation of the entries, in order. -/
def serializePairs : List (List Nat × List Nat) → List Nat
  | [] => []
  | p :: ps => entryBytes p.1 p.2 ++ serializePairs ps

/-- Read a little-endian `uint32` from the front of a byte list. -/
def readLe32 : List Nat → Option (Nat × List Nat)
  | b0 :: b1 :: b2 :: b3 :: rest =>
      some (b0 + 256 * (b1 + 256 * (b2 + 256 * b3)), rest)
  | _ => none

/-- Read a little-endian `uint64` from the front of a byte list. -/
def readLe64 : List Nat → Option (Nat × List Nat)
  | b0 :: b1 :: b2 :: b3 :: b4 :: b5 :: b6 :: b7 :: rest =>
      some (b0 + 256 * (b1 + 256 * (b2 + 256 * (b3 + 256 *
        (b4 + 256 * (b5 + 256 * (b6 + 256 * b7)))))), rest)
  | _ => none

/-- Read exactly `n` raw bytes from the front of a byte list. -/
def readBytes (n : Nat) (bs : List Nat) : Option (List Nat × List Nat) :=
  if n ≤ bs.length then some (bs.take n, bs.drop n) else none

/-- Modelled from the spec: the §3 record layout read back — `uint32`
key length, `uint64` value size, key bytes, value bytes.  The in-repo
consumer of the payload bytes (the work-package processor) is not under
`src/`; the worker in `be_mpi_receiver.cpp` only reconstructs count and
raw payload. -/
def readEntry (bs : List Nat) : Option ((List Nat × List Nat) × List Nat) :=
  (readLe32 bs).bind fun klRest =>
    (readLe64 klRest.2).bind fun vsRest =>
      (readBytes klRest.1 vsRest.2).bind fun keyRest =>
        (readBytes vsRest.1 keyRest.2).bind fun valRest =>
          some ((keyRest.1, valRest.1), valRest.2)

/-- Modelled from the spec: deserializing a work-package payload reads
`numElements` records laid out per §3, in order. -/
def deserializePayload : Nat → List Nat → Option (List (List Nat × List Nat))
  | 0, _ => some []
  | n + 1, bs =>
      (readEntry bs).bind fun pRest =>
        (deserializePayload n pRest.2).bind fun ps => some (pRest.1 :: ps)

/-- A concrete pair sequence used as evaluation input, with one
zero-length value. -/
def pairsEx : List (List Nat × List Nat) :=
  [([1, 2], []), ([3], [7, 8, 9]), ([], [5])]

/-- A record-store record: key bytes and value bytes
(`IO::RecordStore::Record`). -/
structure Record where
  key : List Nat
  data : List Nat
deriving DecidableEq

/-- State of the rank-0 `RecordStoreDistributor` together with its input
record store.  `store` lists the outcome of each successive cursor
position: `some r` is a readable record, `none` a position whose read
raises (a corrupt entry); `cursor` is the position the next
`sequence()`/`sequenceKey()` call reads; `totalCount` is the store's
`getCount()`. -/
structure RSDistState where
  store : List (Option Record)
  totalCount : Nat
  cursor : Nat
  recordsRemaining : Nat
  lastDistributedKey : List Nat
deriving DecidableEq

/-- A work package: element count plus raw payload bytes. -/
structure WorkPackage where
  numElements : Nat
  data : List Nat
deriving DecidableEq

/-- The starting package buffer `packageData(16384)` of
`createWorkPackage`.  Its contents are indeterminate in the source;
modelled as zero bytes — only its size matters to the theorems. -/
def initBuf : List Nat := List.replicate 16384 0

/-- Wrapping `uint64` subtraction `x - y`, for `x < 2 ^ 64`. -/
def sub64 (x y : Nat) : Nat := (x + (2 ^ 64 - y % 2 ^ 64)) % 2 ^ 64

/-- The `for (n = 0; n < keyCount; n++)` loop of
`RecordStoreDistributor::createWorkPackage`: attempt `n` sequential
reads; a failed read is caught and skipped; a successful read updates
`_lastDistributedKey` and appends its (key, value) pair to the package
(the value stays empty when values are not included). -/
def packLoop (includeValues : Bool) :
    Nat → RSDistState → RSDistState × List (List Nat × List Nat)
  | 0, s => (s, [])
  | n + 1, s =>
      match s.store.drop s.cursor with
      | some r :: _ =>
          let s' : RSDistState :=
            { s with cursor := s.cursor + 1, lastDistributedKey := r.key }
          let res := packLoop includeValues n s'
          (res.1, (r.key, if includeValues then r.data else []) :: res.2)
      | _ => packLoop includeValues n { s with cursor := s.cursor + 1 }

/-- `RecordStoreDistributor::createWorkPackage`: when no records remain,
an empty package with the buffer untouched; otherwise the target count
is the chunk size capped by the remaining counter, the remaining
counter is decremented by the full target before the read loop runs,
and `numElements` is the number of records actually packed.  The first
successful `fillBufferWithKeyAndValue` call resizes the buffer down to
exactly the bytes in use, so the payload is the concatenation of the
packed entries once anything packs, and the untouched starting buffer
otherwise.  Read failures are caught inside the loop, so the function
is total (never raises). -/
def createWorkPackage (chunkSize : Nat) (includeValues : Bool)
    (s : RSDistState) : RSDistState × WorkPackage :=
  if s.recordsRemaining = 0 then (s, ⟨0, initBuf⟩)
  else
    let keyCount :=
      if s.recordsRemaining > chunkSize then chunkSize else s.recordsRemaining
    let s1 := { s with recordsRemaining := s.recordsRemaining - keyCount }
    let res := packLoop includeValues keyCount s1
    (res.1,
     ⟨res.2.length, if res.2.isEmpty then initBuf else serializePairs res.2⟩)

/-- The checkpoint record persisted by the Distributor: reason string,
last distributed key, number of keys distributed. -/
structure CheckpointRecord where
  reason : String
  lastKey : List Nat
  numKeys : Nat
deriving DecidableEq

/-- `RecordStoreDistributor::checkpointSave`: record the reason, the
last distributed key, and `getCount() - _recordsRemaining` (`uint64`
subtraction).  Property-store failures are caught and only logged, so
the function is total. -/
def checkpointSave (reason : String) (s : RSDistState) : CheckpointRecord :=
  ⟨reason, s.lastDistributedKey, sub64 s.totalCount s.recordsRemaining⟩

/-- `setCursorAtKey`: the position of the readable record bearing the
given key, searching from the front of the store; `none` (raised
not-found) when absent. -/
def findKeyIndex (key : List Nat) : List (Option Record) → Option Nat
  | [] => none
  | some r :: rest =>
      if r.key = key then some 0 else (findKeyIndex key rest).map (· + 1)
  | none :: rest => (findKeyIndex key rest).map (· + 1)

/-- `RecordStoreDistributor::checkpointRestore`: position the cursor at
the checkpointed last key, `sequence()` one position past it, and
subtract the checkpointed key count from the remaining counter
(`uint64` subtraction); any failure is re-raised (`none`). -/
def checkpointRestore (chk : CheckpointRecord) (s : RSDistState) :
    Option RSDistState :=
  match findKeyIndex chk.lastKey s.store with
  | none => none
  | some i =>
      some { s with cursor := i + 1,
                    recordsRemaining := sub64 s.recordsRemaining chk.numKeys }

/-- Modelled from the spec: one Distributor run requests packages until
the remaining counter reaches 0 and the empty terminal package is
produced.  The driving loop lives in the Distributor base class
(`be_mpi_distributor.cpp`), which is not under `src/`; each step is the
in-source `createWorkPackage`.  `fuel` bounds the number of requests. -/
def distributorRun (chunkSize : Nat) (includeValues : Bool) :
    Nat → RSDistState → List WorkPackage × RSDistState
  | 0, s => ([], s)
  | fuel + 1, s =>
      let res := createWorkPackage chunkSize includeValues s
      if s.recordsRemaining = 0 then ([res.2], res.1)
      else
        let rest := distributorRun chunkSize includeValues fuel res.1
        (res.2 :: rest.1, rest.2)

/-- A ten-record store with distinct single-byte keys, every read
succeeding: the record store of Scenario A. -/
def store10 : List (Option Record) :=
  (List.range 10).map fun i => some ⟨[i], [i, i]⟩

/-- The Scenario A starting state: ten records, all remaining. -/
def stateA : RSDistState := ⟨store10, 10, 0, 10, []⟩

/-- A three-position store whose middle read fails. -/
def storeMix : List (Option Record) :=
  [some ⟨[1], [4]⟩, none, some ⟨[3], [6]⟩]

/-- A starting state over `storeMix`. -/
def stateMix : RSDistState := ⟨storeMix, 3, 0, 3, []⟩

/-- A state with no records remaining. -/
def stateDone : RSDistState := ⟨store10, 10, 4, 0, [3]⟩

/-- A three-record store with distinct keys, every read succeeding. -/
def storeC5 : List (Option Record) :=
  [some ⟨[1], []⟩, some ⟨[2], []⟩, some ⟨[3], []⟩]

/-- A checkpoint record naming the second key of `storeC5`, two keys
distributed. -/
def chkC5 : CheckpointRecord := ⟨"Checkpoint", [2], 2⟩

/-- A freshly constructed state over `storeC5`. -/
def stateC5 : RSDistState := ⟨storeC5, 3, 0, 3, []⟩

/-- The state `checkpointRestore chkC5` yields from `stateC5`. -/
def stateC5R : RSDistState := ⟨storeC5, 3, 2, 1, []⟩

/-- Outcome of one `processWorkPackage` call by the collaborator: a
normal return, the `TerminateJob` error, or any other error. -/
inductive ProcResult where
  | ok
  | terminateJob
  | err
deriving DecidableEq

/-- External events of one iteration of the worker loop of
`Receiver::PackageWorker::workerMain`: the stop-requested flag sampled
at the loop top, whether any process-wide exit flag
(`Exit`/`QuickExit`/`TermExit`) is set, whether the status send to the
manager succeeds, whether `waitForMessage` returns true, whether the
command receive succeeds, the received command, whether the two-part
package receive succeeds, and the collaborator's processing outcome. -/
structure WIter where
  stopReq : Bool
  exitFlag : Bool
  sendOk : Bool
  waitOk : Bool
  recvCmdOk : Bool
  cmd : TaskCommand
  recvPkgOk : Bool
  proc : ProcResult
deriving DecidableEq

/-- How the worker loop of `workerMain` ended: the stop-requested break
at the loop top, a failed status send, a break after reporting a
non-`OK` status, a `waitForMessage` timeout after an `OK` report, or
the modelled event fuel running out with the loop still going. -/
inductive WorkerExit where
  | stopped
  | sendFail
  | reportedNonOk
  | waitTimeout
  | fuelOut
deriving DecidableEq

/-- The `while (stopRequested() == false)` loop of
`Receiver::PackageWorker::workerMain`, carrying the `taskStatus`
variable across iterations; yields the statuses successfully sent to
the manager, in order, and how the loop ended. -/
def workerLoop : TaskStatus → List WIter → List TaskStatus × WorkerExit
  | _, [] => ([], .fuelOut)
  | ts, it :: rest =>
      if it.stopReq then ([], .stopped)
      else
        let ts1 := if it.exitFlag then TaskStatus.exit else ts
        if it.sendOk = false then ([], .sendFail)
        else if ts1 ≠ TaskStatus.ok then ([ts1], .reportedNonOk)
        else if it.waitOk = false then ([ts1], .waitTimeout)
        else if it.recvCmdOk = false then
          let res := workerLoop TaskStatus.failed rest
          (ts1 :: res.1, res.2)
        else if it.cmd = TaskCommand.ignore then
          let res := workerLoop ts1 rest
          (ts1 :: res.1, res.2)
        else if it.recvPkgOk = false then
          let res := workerLoop TaskStatus.failed rest
          (ts1 :: res.1, res.2)
        else
          match it.proc with
          | .ok =>
              let res := workerLoop ts1 rest
              (ts1 :: res.1, res.2)
          | .terminateJob =>
              let res := workerLoop TaskStatus.requestJobTermination rest
              (ts1 :: res.1, res.2)
          | .err =>
              let res := workerLoop TaskStatus.failed rest
              (ts1 :: res.1, res.2)

/-- Per-iteration observations of the polling loop in
`Receiver::sendWorkPackage`: the active-worker count at the loop top,
an optional out-of-band command probed from Task-0, and the optional
worker status message returned by `getNextMessage`. -/
structure SendIter where
  numActive : Nat
  oob : Option TaskCommand
  msg : Option TaskStatus
deriving DecidableEq

/-- How `Receiver::sendWorkPackage` returns: package sent to an idle
worker; silently dropped because a quick/term exit flag is set; the
`StrategyError("No workers")` raised; the `TerminateJob` error raised
after a worker reported `RequestJobTermination`; or the modelled event
fuel ran out mid-poll. -/
inductive SendOutcome where
  | sent
  | droppedExit
  | errNoWorkers
  | errTerminateJob
  | fuelOut
deriving DecidableEq

/-- The `while (true)` polling loop of `Receiver::sendWorkPackage`,
carrying the process-wide quick/term exit flags (set when an
out-of-band command arrives).  A worker whose status is not `OK` and
not `RequestJobTermination` is stopped and polling continues. -/
def sendWorkPackageLoop (quick term : Bool) : List SendIter → SendOutcome
  | [] => .fuelOut
  | it :: rest =>
      if it.numActive = 0 then .errNoWorkers
      else
        let quick1 := quick || decide (it.oob = some TaskCommand.quickExit)
        let term1 := term || decide (it.oob = some TaskCommand.termExit)
        if quick1 || term1 then .droppedExit
        else
          match it.msg with
          | none => sendWorkPackageLoop quick1 term1 rest
          | some st =>
              if st = TaskStatus.requestJobTermination then .errTerminateJob
              else if st = TaskStatus.ok then .sent
              else sendWorkPackageLoop quick1 term1 rest

/-- Outcome `requestWorkPackages` sees from handing one received
package to `sendWorkPackage`: normal return, the `TerminateJob` error,
or any other error. -/
inductive DispatchOutcome where
  | ok
  | terminateJob
  | err
deriving DecidableEq

/-- Externally visible actions of the Receiver request loop: the `OK`
status ping of the send/receive handshake with Task-0, a status message
sent to Task-0, an interrupt-signal broadcast to the local workers, and
a kill-signal broadcast. -/
inductive RcvAction where
  | pingOK
  | sendT0 (st : TaskStatus)
  | sigInt
  | sigKill
deriving DecidableEq

/-- One iteration's inputs to `Receiver::requestWorkPackages`: the
process-wide exit flags sampled at the loop top, the command received
from Task-0 in the handshake, and the outcome of dispatching the
received package. -/
structure ReqIter where
  exitF : Bool
  quickF : Bool
  termF : Bool
  cmd : TaskCommand
  dispatch : DispatchOutcome
deriving DecidableEq

/-- The `while (true)` loop of `Receiver::requestWorkPackages`,
carrying the `status` variable it finally returns; yields the visible
actions, in order, and the returned status. -/
def requestWorkPackagesLoop :
    TaskStatus → List ReqIter → List RcvAction × TaskStatus
  | st, [] => ([], st)
  | st, it :: rest =>
      if it.exitF then ([.sendT0 .exit], .exit)
      else if it.quickF then ([.sigInt, .sendT0 .exit], .exit)
      else if it.termF then ([.sigKill, .sendT0 .exit], .exit)
      else if it.cmd = TaskCommand.ignore then
        let res := requestWorkPackagesLoop st rest
        (.pingOK :: res.1, res.2)
      else if it.cmd = TaskCommand.exit then ([.pingOK], st)
      else if it.cmd = TaskCommand.quickExit then ([.pingOK, .sigInt], st)
      else if it.cmd = TaskCommand.termExit then ([.pingOK, .sigKill], st)
      else
        match it.dispatch with
        | .ok =>
            let res := requestWorkPackagesLoop st rest
            (.pingOK :: res.1, res.2)
        | .terminateJob =>
            let res :=
              requestWorkPackagesLoop TaskStatus.requestJobTermination rest
            (.pingOK :: .sendT0 TaskStatus.requestJobTermination :: res.1,
             res.2)
        | .err =>
            ([.pingOK, .sendT0 TaskStatus.failed], TaskStatus.failed)

/-- The shutdown reason string `Receiver::start` derives from the final
status returned by `requestWorkPackages`. -/
def statusToReason : TaskStatus → String
  | .ok => "Normal end"
  | .exit => "Early exit"
  | .requestJobTermination => "Early exit (job termination requested)"
  | .failed => "Failed"

/-- Whether `pat` occurs as a contiguous run at the start of `s`. -/
def leadsWith : List Char → List Char → Bool
  | [], _ => true
  | _ :: _, [] => false
  | p :: ps, c :: cs => p == c && leadsWith ps cs

/-- Whether `pat` occurs as a contiguous run anywhere in `s`. -/
def containsRun : List Char → List Char → Bool
  | pat, [] => leadsWith pat []
  | pat, c :: cs => leadsWith pat (c :: cs) || containsRun pat cs

/-- Whether the string `pat` occurs contiguously in the string `s`. -/
def strContainsSub (s pat : String) : Bool := containsRun pat.data s.data

/-- A worker iteration reaching the processor, which raises the
terminate-whole-job error. -/
def procTermIter : WIter :=
  ⟨false, false, true, true, true, TaskCommand.continueCmd, true,
   ProcResult.terminateJob⟩

/-- A benign follow-up worker iteration: no stop request, no exit flag,
the status send succeeds. -/
def benignIter : WIter :=
  ⟨false, false, true, true, true, TaskCommand.ignore, true, ProcResult.ok⟩

/-- A dispatch-loop iteration with no active workers left. -/
def noWorkersIter : SendIter := ⟨0, none, none⟩

/-- A request-loop iteration observing the QuickExit flag. -/
def quickIter : ReqIter :=
  ⟨false, true, false, TaskCommand.continueCmd, DispatchOutcome.ok⟩

/-- A benign request-loop iteration whose dispatch raises the
job-termination error. -/
def termReqIter : ReqIter :=
  ⟨false, false, false, TaskCommand.continueCmd, DispatchOutcome.terminateJob⟩

/-- A benign request-loop iteration whose dispatch fails with an
ordinary error. -/
def failReqIter : ReqIter :=
  ⟨false, false, false, TaskCommand.continueCmd, DispatchOutcome.err⟩

theorem readLe32_le32 (rest : List Nat) {n : Nat} (h : n < 2 ^ 32) :
    readLe32 (le32 n ++ rest) = some (n, rest) := by
  simp only [le32, List.cons_append, List.nil_append, readLe32,
    Option.some.injEq, Prod.mk.injEq, and_true]
  omega

theorem readLe64_le64 (rest : List Nat) {n : Nat} (h : n < 2 ^ 64) :
    readLe64 (le64 n ++ rest) = some (n, rest) := by
  simp only [le64, List.cons_append, List.nil_append, readLe64,
    Option.some.injEq, Prod.mk.injEq, and_true]
  omega

theorem readBytes_append (l rest : List Nat) :
    readBytes l.length (l ++ rest) = some (l, rest) := by
  simp [readBytes]

theorem readEntry_entryBytes (k v rest : List Nat)
    (hk : k.length < 2 ^ 32) (hv : v.length < 2 ^ 64) :
    readEntry (entryBytes k v ++ rest) = some ((k, v), rest) := by
  have hk' : k.length % 4294967296 = k.length := by omega
  have hv' : v.length % 18446744073709551616 = v.length := by omega
  have e1 : entryBytes k v ++ rest =
      le32 k.length ++ (le64 v.length ++ (k ++ (v ++ rest))) := by
    simp [entryBytes, hk', hv', List.take_length, List.append_assoc]
  rw [e1]
  simp [readEntry, readLe32_le32 _ hk, readLe64_le64 _ hv, readBytes_append]

/-- C9: encoding a `TaskCommand` (resp. `TaskStatus`) onto the wire as a
decimal-string integer and decoding it back is the identity on every
enum value. -/
theorem claim_C9_wire_enum_roundtrip :
    (∀ c : TaskCommand, messageToCommand (commandToMessage c) = some c) ∧
    (∀ s : TaskStatus, messageToStatus (statusToMessage s) = some s) := by
  constructor
  · intro c; cases c <;> rfl
  · intro s; cases s <;> rfl

/-- C4: serializing any ordered sequence of (key, value) pairs with the
length-prefixed layout together with the element count, then
deserializing that count and payload, reproduces exactly the same
ordered sequence, including zero-length values.  The in-range
hypotheses reflect the machine widths of the length fields. -/
theorem claim_C4_workpackage_roundtrip (ps : List (List Nat × List Nat))
    (h : ∀ p ∈ ps, p.1.length < 2 ^ 32 ∧ p.2.length < 2 ^ 64) :
    deserializePayload ps.length (serializePairs ps) = some ps := by
  induction ps with
  | nil => rfl
  | cons p ps ih =>
    obtain ⟨hk, hv⟩ := h p (List.mem_cons_self p ps)
    have hrest := fun q hq => h q (List.mem_cons_of_mem p hq)
    show deserializePayload (ps.length + 1)
      (entryBytes p.1 p.2 ++ serializePairs ps) = some (p :: ps)
    rw [deserializePayload, readEntry_entryBytes p.1 p.2 _ hk hv]
    simp [ih hrest]

theorem claim_C4_workpackage_roundtrip_witness :
    (∀ p ∈ pairsEx, p.1.length < 2 ^ 32 ∧ p.2.length < 2 ^ 64) ∧
    deserializePayload pairsEx.length (serializePairs pairsEx) =
      some pairsEx :=
  ⟨by decide, claim_C4_workpackage_roundtrip pairsEx (by decide)⟩

theorem packLoop_spec (iv : Bool) (n : Nat) :
    ∀ s : RSDistState,
      (packLoop iv n s).1.store = s.store ∧
      (packLoop iv n s).1.totalCount = s.totalCount ∧
      (packLoop iv n s).1.recordsRemaining = s.recordsRemaining ∧
      (packLoop iv n s).1.cursor = s.cursor + n ∧
      (packLoop iv n s).2.length =
        ((s.store.drop s.cursor).take n).countP (fun o => o.isSome) := by
  induction n with
  | zero => intro s; simp [packLoop]
  | succ n ih =>
    intro s
    cases hd : s.store.drop s.cursor with
    | nil =>
      have ht : s.store.drop (s.cursor + 1) = [] := by
        rw [← List.tail_drop, hd]; rfl
      have hih := ih { s with cursor := s.cursor + 1 }
      simp only [packLoop, hd] at hih ⊢
      rw [ht] at hih
      refine ⟨hih.1, hih.2.1, hih.2.2.1, ?_, ?_⟩
      · rw [hih.2.2.2.1]; omega
      · rw [hih.2.2.2.2]; simp
    | cons o t =>
      have ht : s.store.drop (s.cursor + 1) = t := by
        rw [← List.tail_drop, hd]; rfl
      cases o with
      | some r =>
        have hih := ih { s with cursor := s.cursor + 1, lastDistributedKey := r.key }
        simp only [packLoop, hd] at hih ⊢
        rw [ht] at hih
        refine ⟨hih.1, hih.2.1, hih.2.2.1, ?_, ?_⟩
        · rw [hih.2.2.2.1]; omega
        · simp only [List.length_cons, hih.2.2.2.2, List.take_succ_cons,
            List.countP_cons, Option.isSome_some]
          simp
      | none =>
        have hih := ih { s with cursor := s.cursor + 1 }
        simp only [packLoop, hd] at hih ⊢
        rw [ht] at hih
        refine ⟨hih.1, hih.2.1, hih.2.2.1, ?_, ?_⟩
        · rw [hih.2.2.2.1]; omega
        · simp only [hih.2.2.2.2, List.take_succ_cons, List.countP_cons,
            Option.isSome_none]
          simp

theorem createWorkPackage_spec (chunkSize : Nat) (iv : Bool) (s : RSDistState)
    (h : s.recordsRemaining ≠ 0) :
    (createWorkPackage chunkSize iv s).1.store = s.store ∧
    (createWorkPackage chunkSize iv s).1.totalCount = s.totalCount ∧
    (createWorkPackage chunkSize iv s).1.recordsRemaining
      = s.recordsRemaining - min s.recordsRemaining chunkSize ∧
    (createWorkPackage chunkSize iv s).1.cursor
      = s.cursor + min s.recordsRemaining chunkSize ∧
    (createWorkPackage chunkSize iv s).2.numElements
      = ((s.store.drop s.cursor).take
          (min s.recordsRemaining chunkSize)).countP (fun o => o.isSome) := by
  have hkey :
      (if s.recordsRemaining > chunkSize then chunkSize
        else s.recordsRemaining) = min s.recordsRemaining chunkSize := by
    split <;> omega
  have hp := packLoop_spec iv (min s.recordsRemaining chunkSize)
    { s with recordsRemaining :=
        s.recordsRemaining - min s.recordsRemaining chunkSize }
  simp only [createWorkPackage, if_neg h, hkey]
  refine ⟨hp.1, hp.2.1, ?_, ?_, hp.2.2.2.2⟩
  · rw [hp.2.2.1]
  · rw [hp.2.2.2.1]

theorem countP_take_split {α : Type} (p : α → Bool) (l : List α) (a n : Nat)
    (h : a ≤ n) :
    (l.take n).countP p
      = (l.take a).countP p + ((l.drop a).take (n - a)).countP p := by
  have he := List.take_add l a (n - a)
  rw [show a + (n - a) = n from by omega] at he
  rw [he, List.countP_append]

theorem distributorRun_spec (chunkSize : Nat) (iv : Bool) (hc : 0 < chunkSize) :
    ∀ (fuel : Nat) (s : RSDistState), s.recordsRemaining < fuel →
      (((distributorRun chunkSize iv fuel s).1.map
          WorkPackage.numElements).sum
        = ((s.store.drop s.cursor).take s.recordsRemaining).countP
            (fun o => o.isSome)) ∧
      (distributorRun chunkSize iv fuel s).2.recordsRemaining = 0 := by
  intro fuel
  induction fuel with
  | zero => intro s hs; omega
  | succ fuel ih =>
    intro s hs
    by_cases h0 : s.recordsRemaining = 0
    · constructor
      · simp [distributorRun, createWorkPackage, h0]
      · simp [distributorRun, createWorkPackage, h0]
    · have hcw := createWorkPackage_spec chunkSize iv s h0
      have htpos : 0 < min s.recordsRemaining chunkSize :=
        lt_min (by omega) hc
      have hle : min s.recordsRemaining chunkSize ≤ s.recordsRemaining :=
        Nat.min_le_left _ _
      have hlt : (createWorkPackage chunkSize iv s).1.recordsRemaining
          < fuel := by
        rw [hcw.2.2.1]; omega
      have hih := ih (createWorkPackage chunkSize iv s).1 hlt
      constructor
      · simp only [distributorRun, if_neg h0, List.map_cons, List.sum_cons]
        rw [hcw.2.2.2.2, hih.1, hcw.1, hcw.2.2.2.1, hcw.2.2.1,
          countP_take_split (fun o => o.isSome) (s.store.drop s.cursor)
            (min s.recordsRemaining chunkSize) s.recordsRemaining hle,
          List.drop_drop]
      · simp only [distributorRun, if_neg h0]
        exact hih.2

/-- C1: with a positive remaining counter, the target is
`min(remaining, configuredChunkSize)`; the remaining counter is
decremented by the full target (independently of the store contents —
the state `s`, hence the store, is universally quantified and the new
counter does not mention it, mirroring the decrement happening before
any read); and `numElements` is the number of keys read and packed
successfully, which is at most the target. -/
theorem claim_C1_createWorkPackage (chunkSize : Nat) (iv : Bool)
    (s : RSDistState) (h : 0 < s.recordsRemaining) :
    (createWorkPackage chunkSize iv s).1.recordsRemaining
      = s.recordsRemaining - min s.recordsRemaining chunkSize ∧
    (createWorkPackage chunkSize iv s).2.numElements
      = ((s.store.drop s.cursor).take
          (min s.recordsRemaining chunkSize)).countP (fun o => o.isSome) ∧
    (createWorkPackage chunkSize iv s).2.numElements
      ≤ min s.recordsRemaining chunkSize := by
  have hcw := createWorkPackage_spec chunkSize iv s (by omega)
  refine ⟨hcw.2.2.1, hcw.2.2.2.2, ?_⟩
  rw [hcw.2.2.2.2]
  calc ((s.store.drop s.cursor).take
          (min s.recordsRemaining chunkSize)).countP (fun o => o.isSome)
      ≤ ((s.store.drop s.cursor).take
          (min s.recordsRemaining chunkSize)).length :=
        List.countP_le_length _
    _ ≤ min s.recordsRemaining chunkSize := by
        rw [List.length_take]; omega

theorem claim_C1_createWorkPackage_witness :
    0 < stateMix.recordsRemaining ∧
    ((createWorkPackage 2 true stateMix).1.recordsRemaining
      = stateMix.recordsRemaining - min stateMix.recordsRemaining 2 ∧
    (createWorkPackage 2 true stateMix).2.numElements
      = ((stateMix.store.drop stateMix.cursor).take
          (min stateMix.recordsRemaining 2)).countP (fun o => o.isSome) ∧
    (createWorkPackage 2 true stateMix).2.numElements
      ≤ min stateMix.recordsRemaining 2) :=
  ⟨by decide, claim_C1_createWorkPackage 2 true stateMix (by decide)⟩

/-- C2: for every positive chunk size, the sum of `numElements` over a
full Distributor run equals the number of successful reads among the
attempts (which is at most the starting remaining count), and the
remaining counter ends at exactly 0; and in Scenario A (ten keys, chunk
size 4, every read succeeding) the packages have sizes 4, 4, 2, 0 and a
checkpoint saved after the second package records eight keys
distributed. -/
theorem claim_C2_run_conservation :
    (∀ (chunkSize : Nat) (iv : Bool) (s : RSDistState), 0 < chunkSize →
      ((distributorRun chunkSize iv (s.recordsRemaining + 1) s).1.map
          WorkPackage.numElements).sum
        = ((s.store.drop s.cursor).take s.recordsRemaining).countP
            (fun o => o.isSome) ∧
      ((distributorRun chunkSize iv (s.recordsRemaining + 1) s).1.map
          WorkPackage.numElements).sum ≤ s.recordsRemaining ∧
      (distributorRun chunkSize iv
          (s.recordsRemaining + 1) s).2.recordsRemaining = 0) ∧
    ((distributorRun 4 false 11 stateA).1.map WorkPackage.numElements
        = [4, 4, 2, 0] ∧
      (checkpointSave "Package 2"
        ((createWorkPackage 4 false
          ((createWorkPackage 4 false stateA).1)).1)).numKeys = 8) := by
  constructor
  · intro chunkSize iv s hc
    have hd := distributorRun_spec chunkSize iv hc
      (s.recordsRemaining + 1) s (by omega)
    refine ⟨hd.1, ?_, hd.2⟩
    rw [hd.1]
    calc ((s.store.drop s.cursor).take s.recordsRemaining).countP
          (fun o => o.isSome)
        ≤ ((s.store.drop s.cursor).take s.recordsRemaining).length :=
          List.countP_le_length _
      _ ≤ s.recordsRemaining := by rw [List.length_take]; omega
  · exact ⟨by decide, by decide⟩

theorem claim_C2_run_conservation_witness :
    0 < 4 ∧
    (((distributorRun 4 true (stateMix.recordsRemaining + 1) stateMix).1.map
        WorkPackage.numElements).sum
      = ((stateMix.store.drop stateMix.cursor).take
          stateMix.recordsRemaining).countP (fun o => o.isSome) ∧
    ((distributorRun 4 true (stateMix.recordsRemaining + 1) stateMix).1.map
        WorkPackage.numElements).sum ≤ stateMix.recordsRemaining ∧
    (distributorRun 4 true
        (stateMix.recordsRemaining + 1) stateMix).2.recordsRemaining = 0) :=
  ⟨by decide, claim_C2_run_conservation.1 4 true stateMix (by decide)⟩

theorem initBuf_length : initBuf.length = 16384 := by
  rw [initBuf, List.length_replicate]

theorem initBuf_ne_nil : initBuf ≠ [] := by
  intro hnil
  have hlen := initBuf_length
  rw [hnil] at hlen
  simp at hlen

/-- C3 counterexample: at a state with no records remaining, the
produced package has `numElements = 0` but its data is the untouched
16384-byte starting buffer — not an empty payload as claimed. -/
theorem claim_C3_counterexample :
    (createWorkPackage 4 true stateDone).2.numElements = 0 ∧
    (createWorkPackage 4 true stateDone).2.data.length = 16384 ∧
    ¬((createWorkPackage 4 true stateDone).2.data = []) := by
  have hd : (createWorkPackage 4 true stateDone).2.data = initBuf := rfl
  exact ⟨rfl, by rw [hd, initBuf_length], by rw [hd]; exact initBuf_ne_nil⟩

/-- C3 (amended): when the remaining counter is 0, `createWorkPackage`
returns the state unchanged and a package with `numElements = 0` whose
data is the untouched 16384-byte starting buffer; the function is total
on this path, so no error is raised. -/
theorem claim_C3_empty_package (chunkSize : Nat) (iv : Bool)
    (s : RSDistState) (h : s.recordsRemaining = 0) :
    createWorkPackage chunkSize iv s = (s, ⟨0, initBuf⟩) ∧
    (createWorkPackage chunkSize iv s).2.numElements = 0 ∧
    (createWorkPackage chunkSize iv s).2.data.length = 16384 := by
  have he : createWorkPackage chunkSize iv s = (s, ⟨0, initBuf⟩) := by
    simp [createWorkPackage, h]
  exact ⟨he, by rw [he], by rw [he]; exact initBuf_length⟩

theorem claim_C3_empty_package_witness :
    stateDone.recordsRemaining = 0 ∧
    (createWorkPackage 7 false stateDone = (stateDone, ⟨0, initBuf⟩) ∧
    (createWorkPackage 7 false stateDone).2.numElements = 0 ∧
    (createWorkPackage 7 false stateDone).2.data.length = 16384) :=
  ⟨rfl, claim_C3_empty_package 7 false stateDone rfl⟩

/-- C5 counterexample: restoring twice from the same unchanged
checkpoint yields the same cursor but not the same remaining count —
the second restore subtracts the checkpointed key count again
(`uint64`-wrapping below zero). -/
theorem claim_C5_counterexample :
    (checkpointRestore chkC5 stateC5).map RSDistState.cursor = some 2 ∧
    ((checkpointRestore chkC5 stateC5).bind
        (checkpointRestore chkC5)).map RSDistState.cursor = some 2 ∧
    (checkpointRestore chkC5 stateC5).map
        RSDistState.recordsRemaining = some 1 ∧
    ((checkpointRestore chkC5 stateC5).bind
        (checkpointRestore chkC5)).map RSDistState.recordsRemaining
      = some 18446744073709551615 ∧
    (18446744073709551615 : Nat) ≠ 1 := by
  refine ⟨by decide, by decide, by decide, by decide, by decide⟩

/-- C5 (amended): a second restore from the same unchanged checkpoint
succeeds and repositions the cursor to the same place as the first, but
it reduces the remaining counter by the checkpointed key count again
(`uint64` subtraction), so the remaining count matches the first
restore only when that count is a multiple of `2 ^ 64`. -/
theorem claim_C5_restore_again (chk : CheckpointRecord) (s s1 : RSDistState)
    (h1 : checkpointRestore chk s = some s1) :
    ∃ s2, checkpointRestore chk s1 = some s2 ∧ s2.cursor = s1.cursor ∧
      s2.recordsRemaining = sub64 s1.recordsRemaining chk.numKeys := by
  unfold checkpointRestore at h1 ⊢
  cases hf : findKeyIndex chk.lastKey s.store with
  | none => rw [hf] at h1; cases h1
  | some i =>
    rw [hf] at h1
    have hs1 : s1 = { s with cursor := i + 1, recordsRemaining := sub64 s.recordsRemaining chk.numKeys } :=
      (Option.some.inj h1).symm
    subst hs1
    rw [show ({ s with cursor := i + 1, recordsRemaining := sub64 s.recordsRemaining chk.numKeys } : RSDistState).store = s.store from rfl, hf]
    exact ⟨_, rfl, rfl, rfl⟩

theorem claim_C5_restore_again_witness :
    checkpointRestore chkC5 stateC5 = some stateC5R ∧
    (∃ s2, checkpointRestore chkC5 stateC5R = some s2 ∧
      s2.cursor = stateC5R.cursor ∧
      s2.recordsRemaining = sub64 stateC5R.recordsRemaining chkC5.numKeys) :=
  ⟨by decide, claim_C5_restore_again chkC5 stateC5 stateC5R (by decide)⟩

/-- C6: when `processWorkPackage` raises an error, the worker's next
reported status is `RequestJobTermination` for the terminate-whole-job
error and `Failed` for any other error; provided no stop signal has
been received (neither the worker stop request nor a signal-derived
process-wide exit flag) and the status send succeeds, the worker sends
exactly that one more status message to its manager and exits the
loop — never silently. -/
theorem claim_C6_worker_reports_once (i j : WIter) (rest : List WIter)
    (hi1 : i.stopReq = false) (hi2 : i.exitFlag = false)
    (hi3 : i.sendOk = true) (hi4 : i.waitOk = true)
    (hi5 : i.recvCmdOk = true) (hi6 : i.cmd ≠ TaskCommand.ignore)
    (hi7 : i.recvPkgOk = true) (hp : i.proc ≠ ProcResult.ok)
    (hj1 : j.stopReq = false) (hj2 : j.exitFlag = false)
    (hj3 : j.sendOk = true) :
    workerLoop TaskStatus.ok (i :: j :: rest)
      = ([TaskStatus.ok,
          if i.proc = ProcResult.terminateJob
            then TaskStatus.requestJobTermination else TaskStatus.failed],
         WorkerExit.reportedNonOk) := by
  cases hpc : i.proc with
  | ok => exact absurd hpc hp
  | terminateJob =>
    simp [workerLoop, hi1, hi2, hi3, hi4, hi5, hi6, hi7, hpc, hj1, hj2, hj3]
  | err =>
    simp [workerLoop, hi1, hi2, hi3, hi4, hi5, hi6, hi7, hpc, hj1, hj2, hj3]

theorem claim_C6_worker_reports_once_witness :
    (procTermIter.stopReq = false ∧ procTermIter.exitFlag = false ∧
     procTermIter.sendOk = true ∧ procTermIter.waitOk = true ∧
     procTermIter.recvCmdOk = true ∧
     procTermIter.cmd ≠ TaskCommand.ignore ∧
     procTermIter.recvPkgOk = true ∧ procTermIter.proc ≠ ProcResult.ok ∧
     benignIter.stopReq = false ∧ benignIter.exitFlag = false ∧
     benignIter.sendOk = true) ∧
    workerLoop TaskStatus.ok (procTermIter :: benignIter :: [])
      = ([TaskStatus.ok,
          if procTermIter.proc = ProcResult.terminateJob
            then TaskStatus.requestJobTermination else TaskStatus.failed],
         WorkerExit.reportedNonOk) :=
  ⟨by decide,
   claim_C6_worker_reports_once procTermIter benignIter [] (by decide)
     (by decide) (by decide) (by decide) (by decide) (by decide) (by decide)
     (by decide) (by decide) (by decide) (by decide)⟩

/-- C7: with no active workers, `sendWorkPackage` raises
`StrategyError("No workers")` instead of logging the package as lost
and returning without error — the implementation contradicts its own
comment block (and the spec sentence written from it). -/
theorem claim_C7_no_workers_raises (it : SendIter) (rest : List SendIter)
    (h : it.numActive = 0) :
    sendWorkPackageLoop false false (it :: rest)
      = SendOutcome.errNoWorkers := by
  simp [sendWorkPackageLoop, h]

theorem claim_C7_no_workers_raises_witness :
    noWorkersIter.numActive = 0 ∧
    sendWorkPackageLoop false false (noWorkersIter :: [])
      = SendOutcome.errNoWorkers :=
  ⟨rfl, claim_C7_no_workers_raises noWorkersIter [] rfl⟩

/-- C8 counterexample: with the QuickExit flag observed at the loop
top, the Receiver broadcasts SIGINT to its workers, sends final status
`Exit` and requests no further packages — but the shutdown reason
string derived from that status is "Early exit", which does not contain
"Quick Exit" as the claim states. -/
theorem claim_C8_counterexample :
    requestWorkPackagesLoop TaskStatus.ok (quickIter :: failReqIter :: [])
      = ([RcvAction.sigInt, RcvAction.sendT0 TaskStatus.exit],
         TaskStatus.exit) ∧
    statusToReason TaskStatus.exit = "Early exit" ∧
    strContainsSub (statusToReason TaskStatus.exit) "Quick Exit" = false := by
  exact ⟨by decide, rfl, by decide⟩

/-- C8 (amended): when the QuickExit flag is observed during the
request loop, all local workers are sent SIGINT, no further work
packages are requested (the remaining loop inputs are never consumed),
and the final status sent to the Distributor is `Exit`; the
human-readable shutdown reason derived from that status is the fixed
string "Early exit" — the phrase "Quick Exit" appears only in the
Receiver's log line at the exit point, not in the shutdown reason. -/
theorem claim_C8_quick_exit (st : TaskStatus) (it : ReqIter)
    (rest : List ReqIter) (h1 : it.exitF = false) (h2 : it.quickF = true) :
    requestWorkPackagesLoop st (it :: rest)
      = ([RcvAction.sigInt, RcvAction.sendT0 TaskStatus.exit],
         TaskStatus.exit) ∧
    statusToReason TaskStatus.exit = "Early exit" := by
  constructor
  · simp [requestWorkPackagesLoop, h1, h2]
  · rfl

theorem claim_C8_quick_exit_witness :
    (quickIter.exitF = false ∧ quickIter.quickF = true) ∧
    (requestWorkPackagesLoop TaskStatus.ok (quickIter :: [])
      = ([RcvAction.sigInt, RcvAction.sendT0 TaskStatus.exit],
         TaskStatus.exit) ∧
     statusToReason TaskStatus.exit = "Early exit") :=
  ⟨by decide,
   claim_C8_quick_exit TaskStatus.ok quickIter [] (by decide) (by decide)⟩

/-- C10: a job-termination outcome during dispatch makes the request
loop send `RequestJobTermination` to Task-0 and then keep iterating,
consuming the remaining loop inputs; any other dispatch failure makes
it send `Failed` and return immediately, with the remaining inputs
unconsumed. -/
theorem claim_C10_dispatch_outcomes (st : TaskStatus) (it : ReqIter)
    (rest : List ReqIter) (h1 : it.exitF = false) (h2 : it.quickF = false)
    (h3 : it.termF = false) (h4 : it.cmd = TaskCommand.continueCmd) :
    (it.dispatch = DispatchOutcome.terminateJob →
      requestWorkPackagesLoop st (it :: rest)
        = (RcvAction.pingOK ::
            RcvAction.sendT0 TaskStatus.requestJobTermination ::
            (requestWorkPackagesLoop
              TaskStatus.requestJobTermination rest).1,
           (requestWorkPackagesLoop
              TaskStatus.requestJobTermination rest).2)) ∧
    (it.dispatch = DispatchOutcome.err →
      requestWorkPackagesLoop st (it :: rest)
        = ([RcvAction.pingOK, RcvAction.sendT0 TaskStatus.failed],
           TaskStatus.failed)) := by
  constructor <;> intro hd <;>
    simp [requestWorkPackagesLoop, h1, h2, h3, h4, hd]

theorem claim_C10_dispatch_outcomes_witness :
    (termReqIter.exitF = false ∧ termReqIter.quickF = false ∧
     termReqIter.termF = false ∧
     termReqIter.cmd = TaskCommand.continueCmd) ∧
    ((termReqIter.dispatch = DispatchOutcome.terminateJob →
      requestWorkPackagesLoop TaskStatus.ok (termReqIter :: [])
        = (RcvAction.pingOK ::
            RcvAction.sendT0 TaskStatus.requestJobTermination ::
            (requestWorkPackagesLoop
              TaskStatus.requestJobTermination ([] : List ReqIter)).1,
           (requestWorkPackagesLoop
              TaskStatus.requestJobTermination ([] : List ReqIter)).2)) ∧
     (termReqIter.dispatch = DispatchOutcome.err →
      requestWorkPackagesLoop TaskStatus.ok (termReqIter :: [])
        = ([RcvAction.pingOK, RcvAction.sendT0 TaskStatus.failed],
           TaskStatus.failed))) :=
  ⟨by decide,
   claim_C10_dispatch_outcomes TaskStatus.ok termReqIter [] (by decide)
     (by decide) (by decide) (by decide)⟩

end BiomevalMPI
